import Mathlib

/-!
Verification of the `useSuiPasskey` React hook (use-sui-passkey, src/index.ts).

The hook owns a passkey session: it constructs a provider bound to the
relying-party identity, creates or recovers a passkey keypair, derives the Sui
address, signs messages and transactions, persists the base64-encoded public
key to a pluggable storage backend and rehydrates it on mount, and clears the
session.

Shallow embedding conventions:
  * A `PasskeyKeypair` / `PublicKey` is represented by its raw public-key
    bytes (`List Nat`, each entry a byte).  The SDK guarantees that a keypair
    constructed from raw bytes exposes exactly those bytes, so this
    identification is faithful.
  * The SDK base64 codec (`toBase64` / `fromBase64` from the utils module) is
    modelled concretely as standard base64 over the usual alphabet; strings
    are lists of characters.
  * Address derivation (`PublicKey.toSuiAddress`) is an external SDK
    function; operations take it as an explicit parameter `derive`.
  * External asynchronous calls (the registration ceremony, the two
    sign-and-recover ceremonies, the SDK signing routines, storage I/O) are
    environmental: their outcomes are inputs of the operations, and every
    invocation of one is recorded in an event trace so that "without invoking
    X" properties are expressible.
  * React state (`keypair`, `address`, `error`, `loading`) is an explicit
    `HookState` record; each operation maps a state (and storage) to a new
    state (and storage) together with its result, exactly following the
    sequence of `setX` calls and `throw`s in the source.
-/

set_option maxHeartbeats 1000000

namespace UseSuiPasskey

/-- Raw byte sequences: public keys, encoded messages, transaction bytes.
Each entry stands for one byte; the bound is tracked by `isValidBytes`. -/
abbrev Bytes := List Nat

/-- All entries are genuine bytes (below 256).  Raw public-key bytes coming
from the SDK always satisfy this. -/
def isValidBytes (bs : Bytes) : Prop := ∀ b ∈ bs, b < 256

instance isValidBytes_decidable : DecidablePred isValidBytes := fun bs =>
  List.decidableBAll _ bs

/-! ### Base64 codec (model of the SDK utils `toBase64` / `fromBase64`) -/

/-- The standard base64 alphabet, in index order. -/
def b64Alphabet : List Char :=
  ['A','B','C','D','E','F','G','H','I','J','K','L','M',
   'N','O','P','Q','R','S','T','U','V','W','X','Y','Z',
   'a','b','c','d','e','f','g','h','i','j','k','l','m',
   'n','o','p','q','r','s','t','u','v','w','x','y','z',
   '0','1','2','3','4','5','6','7','8','9','+','/']

/-- Character of a sextet value; the out-of-range value 64 is the padding
character. -/
def sextetToChar (s : Nat) : Char := b64Alphabet.getD s '='

/-- Sextet value of a character: its index in the alphabet; the padding
character (and any foreign character) maps to 64. -/
def charToSextet (c : Char) : Nat := b64Alphabet.indexOf c

/-- Byte groups to sextet values (64 = padding), three bytes to four
sextets. -/
def encodeSextets : List Nat → List Nat
  | [] => []
  | [b1] => [b1 / 4, b1 % 4 * 16, 64, 64]
  | [b1, b2] => [b1 / 4, b1 % 4 * 16 + b2 / 16, b2 % 16 * 4, 64]
  | b1 :: b2 :: b3 :: rest =>
      b1 / 4 :: (b1 % 4 * 16 + b2 / 16) :: (b2 % 16 * 4 + b3 / 64) ::
        b3 % 64 :: encodeSextets rest

/-- Sextet values back to bytes, honouring the padding marker 64. -/
def decodeSextets : List Nat → List Nat
  | s1 :: s2 :: s3 :: s4 :: rest =>
      if s3 = 64 then [s1 * 4 + s2 / 16]
      else if s4 = 64 then [s1 * 4 + s2 / 16, s2 % 16 * 16 + s3 / 4]
      else (s1 * 4 + s2 / 16) :: (s2 % 16 * 16 + s3 / 4) ::
        (s3 % 4 * 64 + s4) :: decodeSextets rest
  | _ => []

/-- `toBase64` of the SDK utils: base64 string (as character list) of a byte
sequence. -/
def toBase64 (bs : Bytes) : List Char := (encodeSextets bs).map sextetToChar

/-- A character admissible in a base64 string. -/
def isB64Char (c : Char) : Bool := c == '=' || b64Alphabet.contains c

/-- `fromBase64` of the SDK utils: decodes a base64 string; `none` models the
SDK rejecting malformed input. -/
def fromBase64 (s : List Char) : Option Bytes :=
  if s.all isB64Char then some (decodeSextets (s.map charToSextet)) else none

theorem encodeSextets_le (bs : Bytes) (h : isValidBytes bs) :
    ∀ s ∈ encodeSextets bs, s ≤ 64 := by
  induction bs using encodeSextets.induct with
  | case1 => intro s hs; simp [encodeSextets] at hs
  | case2 b1 =>
      have hb1 : b1 < 256 := h b1 (by simp)
      intro s hs
      simp only [encodeSextets, List.mem_cons, List.not_mem_nil, or_false] at hs
      rcases hs with h1 | h1 | h1 | h1 <;> omega
  | case3 b1 b2 =>
      have hb1 : b1 < 256 := h b1 (by simp)
      have hb2 : b2 < 256 := h b2 (by simp)
      intro s hs
      simp only [encodeSextets, List.mem_cons, List.not_mem_nil, or_false] at hs
      rcases hs with h1 | h1 | h1 | h1 <;> omega
  | case4 b1 b2 b3 rest ih =>
      have hb1 : b1 < 256 := h b1 (by simp)
      have hb2 : b2 < 256 := h b2 (by simp)
      have hb3 : b3 < 256 := h b3 (by simp)
      have hrest : isValidBytes rest := fun b hb => h b (by simp [hb])
      intro s hs
      simp only [encodeSextets, List.mem_cons] at hs
      rcases hs with h1 | h1 | h1 | h1 | h1
      · omega
      · omega
      · omega
      · omega
      · exact ih hrest s h1

theorem decodeSextets_encodeSextets (bs : Bytes) (h : isValidBytes bs) :
    decodeSextets (encodeSextets bs) = bs := by
  induction bs using encodeSextets.induct with
  | case1 => simp [encodeSextets, decodeSextets]
  | case2 b1 =>
      simp only [encodeSextets, decodeSextets, if_pos rfl]
      exact List.cons_eq_cons.mpr ⟨by omega, rfl⟩
  | case3 b1 b2 =>
      have hb2 : b2 < 256 := h b2 (by simp)
      have h3 : ¬ (b2 % 16 * 4 = 64) := by omega
      simp only [encodeSextets, decodeSextets, if_neg h3, if_pos rfl]
      refine List.cons_eq_cons.mpr ⟨by omega, ?_⟩
      exact List.cons_eq_cons.mpr ⟨by omega, rfl⟩
  | case4 b1 b2 b3 rest ih =>
      have hb1 : b1 < 256 := h b1 (by simp)
      have hb2 : b2 < 256 := h b2 (by simp)
      have hb3 : b3 < 256 := h b3 (by simp)
      have hrest : isValidBytes rest := fun b hb => h b (by simp [hb])
      have h3 : ¬ (b2 % 16 * 4 + b3 / 64 = 64) := by omega
      have h4 : ¬ (b3 % 64 = 64) := by omega
      simp only [encodeSextets, decodeSextets, if_neg h3, if_neg h4]
      refine List.cons_eq_cons.mpr ⟨by omega, ?_⟩
      refine List.cons_eq_cons.mpr ⟨by omega, ?_⟩
      refine List.cons_eq_cons.mpr ⟨by omega, ih hrest⟩

theorem charToSextet_sextetToChar_lt :
    ∀ s < 65, charToSextet (sextetToChar s) = s := by decide

theorem charToSextet_sextetToChar (s : Nat) (h : s ≤ 64) :
    charToSextet (sextetToChar s) = s :=
  charToSextet_sextetToChar_lt s (by omega)

theorem isB64Char_sextetToChar_lt :
    ∀ s < 65, isB64Char (sextetToChar s) = true := by decide

theorem fromBase64_toBase64 (bs : Bytes) (h : isValidBytes bs) :
    fromBase64 (toBase64 bs) = some bs := by
  have hle := encodeSextets_le bs h
  have hall : (toBase64 bs).all isB64Char = true := by
    simp only [toBase64, List.all_eq_true]
    intro c hc
    obtain ⟨s, hs, rfl⟩ := List.mem_map.mp hc
    exact isB64Char_sextetToChar_lt s (by have := hle s hs; omega)
  have hmap : (toBase64 bs).map charToSextet = encodeSextets bs := by
    simp only [toBase64, List.map_map]
    have : ∀ s ∈ encodeSextets bs, (charToSextet ∘ sextetToChar) s = id s := by
      intro s hs
      simpa using charToSextet_sextetToChar s (hle s hs)
    rw [List.map_congr_left this, List.map_id]
  rw [fromBase64, if_pos hall, hmap, decodeSextets_encodeSextets bs h]

theorem toBase64_injOn (a b : Bytes) (ha : isValidBytes a) (hb : isValidBytes b)
    (h : toBase64 a = toBase64 b) : a = b := by
  have h1 := fromBase64_toBase64 a ha
  have h2 := fromBase64_toBase64 b hb
  rw [h, h2] at h1
  exact (Option.some_injective _ h1).symm

/-! ### Environment, provider, storage and hook state -/

/-- The host environment feature checks (`isBrowser`, `PublicKeyCredential in
window`). -/
structure Env where
  isBrowser : Bool
  hasPublicKeyCredential : Bool
  deriving DecidableEq

/-- `hasWebAuthn` of the source. -/
def hasWebAuthn (e : Env) : Bool := e.isBrowser && e.hasPublicKeyCredential

/-- `supported` flag exposed by the hook. -/
def supported (e : Env) : Bool := hasWebAuthn e

/-- The constructed `BrowserPasskeyProvider` (relying-party identity). -/
structure Provider where
  rpName : String
  rpId : String
  deriving DecidableEq

/-- The provider memo of the source: `null` when unsupported, and a thrown
constructor (hostile environment, `ctorThrows`) is also turned into `null`. -/
def mkProvider (e : Env) (rpName : String) (rpId : Option String)
    (hostname : String) (ctorThrows : Bool) : Option Provider :=
  if supported e then
    if ctorThrows then none
    else some ⟨rpName, rpId.getD (if e.isBrowser then hostname else "")⟩
  else none

/-- `initialised` flag exposed by the hook. -/
def initialised (provider : Option Provider) : Bool := provider.isSome

/-- A Storage-like backend: an association list of slots plus flags saying
which of its operations throw in this environment. -/
structure StorageModel where
  items : List (String × List Char)
  getThrows : Bool
  setThrows : Bool
  removeThrows : Bool
  deriving DecidableEq

/-- First value stored under a key. -/
def lookupKey : List (String × List Char) → String → Option (List Char)
  | [], _ => none
  | (k', v) :: rest, k => if k' = k then some v else lookupKey rest k

/-- All slots for a key removed. -/
def removeKey : List (String × List Char) → String → List (String × List Char)
  | [], _ => []
  | (k', v) :: rest, k =>
      if k' = k then removeKey rest k else (k', v) :: removeKey rest k

/-- `storage.getItem(key)`; `Except.error` models a thrown storage read. -/
def StorageModel.getItem (s : StorageModel) (k : String) :
    Except Unit (Option (List Char)) :=
  if s.getThrows then Except.error () else Except.ok (lookupKey s.items k)

/-- `storage.setItem(key, value)`; `Except.error` models a thrown write. -/
def StorageModel.setItem (s : StorageModel) (k : String) (v : List Char) :
    Except Unit StorageModel :=
  if s.setThrows then Except.error ()
  else Except.ok { s with items := (k, v) :: removeKey s.items k }

/-- `storage.removeItem(key)`; `Except.error` models a thrown removal. -/
def StorageModel.removeItem (s : StorageModel) (k : String) :
    Except Unit StorageModel :=
  if s.removeThrows then Except.error ()
  else Except.ok { s with items := removeKey s.items k }

/-- A Sui address string. -/
abbrev Address := String

/-- The four `useState` cells of the hook.  A held `PasskeyKeypair` is
represented by its raw public-key bytes. -/
structure HookState where
  keypair : Option Bytes
  address : Option Address
  error : Option String
  loading : Bool
  deriving DecidableEq

/-- The state right after mount: all cells null, `loading` false. -/
def initialState : HookState :=
  { keypair := none, address := none, error := none, loading := false }

/-- Trace of invocations of external collaborators: the registration
ceremony, sign-and-recover ceremonies, SDK signing routines, storage I/O. -/
inductive ExtEvent where
  | ceremony
  | signAndRecover (msg : Bytes)
  | signMessage (msg : Bytes)
  | signTx (tx : Bytes)
  | storageGet (key : String)
  | storageSet (key : String) (value : List Char)
  | storageRemove (key : String)
  deriving DecidableEq

/-- A `Uint8Array | string` argument. -/
abbrev ByteOrString := Sum Bytes String

/-- `toBytes` of the source: identity on byte arrays, UTF-8 encoding on
strings. -/
def toBytes : ByteOrString → Bytes
  | Sum.inl bs => bs
  | Sum.inr s => s.toUTF8.toList.map UInt8.toNat

/-- Default first recovery message of `recoverTwoStep`. -/
def defaultM1 : ByteOrString := Sum.inr "Hello world!"

/-- Default second recovery message of `recoverTwoStep`. -/
def defaultM2 : ByteOrString := Sum.inr "Hello world 2!"

/-- `DEFAULT_STORAGE_KEY` of the source. -/
def DEFAULT_STORAGE_KEY : String := "sui:passkey:pubkey"

/-- `storageKey = DEFAULT_STORAGE_KEY` option defaulting. -/
def resolveStorageKey (storageKey : Option String) : String :=
  storageKey.getD DEFAULT_STORAGE_KEY

/-- Message thrown by `create` and `recoverTwoStep` when no provider
exists. -/
def passkeyUnavailableMsg : String := "Passkey not available in this environment."

/-- Message thrown by `recoverTwoStep` when the candidate sets share no
key. -/
def ambiguousRecoveryMsg : String :=
  "Could not determine a unique public key from signatures."

/-- Message thrown by the sign operations when no keypair is held. -/
def noKeypairMsg : String :=
  "No passkey keypair. Call create() or recoverTwoStep() first."

/-- `{ signature }` result of the sign operations. -/
structure SignResult where
  signature : String
  deriving DecidableEq

/-- `findCommonPublicKey` of the source: first key of `b` whose base64 raw
bytes occur among the base64 raw bytes of `a`. -/
def findCommonPublicKey (a b : List Bytes) : Option Bytes :=
  let aSet := a.map (fun pk => toBase64 pk)
  (b.find? (fun pk => aSet.contains (toBase64 pk)))

/-- Outcome of one hook operation: the settled promise, the hook state and
storage afterwards, and the trace of external invocations. -/
structure OpOut (α : Type) where
  result : Except String α
  state : HookState
  store : Option StorageModel
  events : List ExtEvent

/-- `persist` of the source: best-effort write of the base64 public key;
absent storage is a no-op, a thrown write is swallowed. -/
def persist (storageKey : String) (store : Option StorageModel) (kp : Bytes) :
    Option StorageModel × List ExtEvent :=
  match store with
  | none => (none, [])
  | some s =>
      match s.setItem storageKey (toBase64 kp) with
      | Except.ok s' => (some s', [ExtEvent.storageSet storageKey (toBase64 kp)])
      | Except.error _ => (some s, [ExtEvent.storageSet storageKey (toBase64 kp)])

/-- `create` of the source.  `ceremony` is the outcome of the external
`PasskeyKeypair.getPasskeyInstance(provider)` registration ceremony. -/
def create (provider : Option Provider) (storageKey : String)
    (ceremony : Except String Bytes) (derive : Bytes → Address)
    (st : HookState) (store : Option StorageModel) : OpOut (Bytes × Address) :=
  match provider with
  | none => ⟨Except.error passkeyUnavailableMsg, st, store, []⟩
  | some _ =>
      let st1 : HookState := { st with loading := true, error := none }
      match ceremony with
      | Except.error e =>
          ⟨Except.error e, { st1 with error := some e, loading := false },
           store, [ExtEvent.ceremony]⟩
      | Except.ok kp =>
          let addr := derive kp
          let st2 : HookState :=
            { st1 with keypair := some kp, address := some addr, loading := false }
          let ps := persist storageKey store kp
          ⟨Except.ok (kp, addr), st2, ps.1, ExtEvent.ceremony :: ps.2⟩

/-- `recoverTwoStep` of the source.  `rec1` and `rec2` are the outcomes of
the two external `PasskeyKeypair.signAndRecover` ceremonies (each an
interactive ceremony of its own, so each outcome is an independent input). -/
def recoverTwoStep (provider : Option Provider) (storageKey : String)
    (rec1 rec2 : Except String (List Bytes)) (derive : Bytes → Address)
    (m1 m2 : ByteOrString) (st : HookState) (store : Option StorageModel) :
    OpOut (Bytes × Address) :=
  match provider with
  | none => ⟨Except.error passkeyUnavailableMsg, st, store, []⟩
  | some _ =>
      let st1 : HookState := { st with loading := true, error := none }
      let ev1 := ExtEvent.signAndRecover (toBytes m1)
      match rec1 with
      | Except.error e =>
          ⟨Except.error e, { st1 with error := some e, loading := false },
           store, [ev1]⟩
      | Except.ok possible1 =>
          let ev2 := ExtEvent.signAndRecover (toBytes m2)
          match rec2 with
          | Except.error e =>
              ⟨Except.error e, { st1 with error := some e, loading := false },
               store, [ev1, ev2]⟩
          | Except.ok possible2 =>
              match findCommonPublicKey possible1 possible2 with
              | none =>
                  ⟨Except.error ambiguousRecoveryMsg,
                   { st1 with error := some ambiguousRecoveryMsg, loading := false },
                   store, [ev1, ev2]⟩
              | some common =>
                  let addr := derive common
                  let st2 : HookState :=
                    { st1 with keypair := some common, address := some addr,
                               loading := false }
                  let ps := persist storageKey store common
                  ⟨Except.ok (common, addr), st2, ps.1, ev1 :: ev2 :: ps.2⟩

/-- `signPersonalMessage` of the source.  `signOutcome` is the outcome of the
external `keypair.signPersonalMessage(bytes)` SDK call; it is only reached
when a keypair is held. -/
def signPersonalMessage (signOutcome : Except String String)
    (message : ByteOrString) (st : HookState) (store : Option StorageModel) :
    OpOut SignResult :=
  match st.keypair with
  | none => ⟨Except.error noKeypairMsg, st, store, []⟩
  | some _ =>
      match signOutcome with
      | Except.error e =>
          ⟨Except.error e, st, store, [ExtEvent.signMessage (toBytes message)]⟩
      | Except.ok sig =>
          ⟨Except.ok ⟨sig⟩, st, store, [ExtEvent.signMessage (toBytes message)]⟩

/-- `signTransaction` of the source, same shape for transaction bytes. -/
def signTransaction (signOutcome : Except String String) (txBytes : Bytes)
    (st : HookState) (store : Option StorageModel) : OpOut SignResult :=
  match st.keypair with
  | none => ⟨Except.error noKeypairMsg, st, store, []⟩
  | some _ =>
      match signOutcome with
      | Except.error e =>
          ⟨Except.error e, st, store, [ExtEvent.signTx txBytes]⟩
      | Except.ok sig =>
          ⟨Except.ok ⟨sig⟩, st, store, [ExtEvent.signTx txBytes]⟩

/-- `clear` of the source: best-effort storage removal (a thrown removal is
swallowed), then the three cells are reset.  Total by construction, exactly
as `clear` never throws. -/
def clear (storageKey : String) (st : HookState) (store : Option StorageModel) :
    HookState × Option StorageModel × List ExtEvent :=
  let cleanup : Option StorageModel × List ExtEvent :=
    match store with
    | none => (none, [])
    | some s =>
        match s.removeItem storageKey with
        | Except.ok s' => (some s', [ExtEvent.storageRemove storageKey])
        | Except.error _ => (some s, [ExtEvent.storageRemove storageKey])
  ({ st with keypair := none, address := none, error := none },
   cleanup.1, cleanup.2)

/-- The mount-time rehydration effect of the source: requires a provider,
a storage backend and `autoLoad`; a falsy (empty) stored string is skipped;
any failure (storage read throw, malformed base64) is swallowed. -/
def rehydrate (provider : Option Provider) (store : Option StorageModel)
    (autoLoad : Bool) (storageKey : String) (derive : Bytes → Address)
    (st : HookState) : HookState × List ExtEvent :=
  match provider, store, autoLoad with
  | some _, some s, true =>
      match s.getItem storageKey with
      | Except.error _ => (st, [ExtEvent.storageGet storageKey])
      | Except.ok none => (st, [ExtEvent.storageGet storageKey])
      | Except.ok (some b64) =>
          if b64 = [] then (st, [ExtEvent.storageGet storageKey])
          else
            match fromBase64 b64 with
            | none => (st, [ExtEvent.storageGet storageKey])
            | some bytes =>
                ({ st with keypair := some bytes, address := some (derive bytes) },
                 [ExtEvent.storageGet storageKey])
  | _, _, _ => (st, [])

/-! ### Helper lemmas about the recovery intersection and storage -/

theorem contains_iff_mem_chars (l : List (List Char)) (a : List Char) :
    l.contains a = true ↔ a ∈ l := by
  simp [List.contains, List.elem_iff]

theorem findCommonPublicKey_none_iff (a b : List Bytes) :
    findCommonPublicKey a b = none ↔
      ∀ y ∈ b, ∀ x ∈ a, toBase64 x ≠ toBase64 y := by
  simp only [findCommonPublicKey, List.find?_eq_none]
  constructor
  · intro h y hy x hx hEq
    have := h y hy
    rw [contains_iff_mem_chars] at this
    exact this (List.mem_map.mpr ⟨x, hx, hEq⟩)
  · intro h y hy
    rw [contains_iff_mem_chars]
    intro hmem
    obtain ⟨x, hx, hEq⟩ := List.mem_map.mp hmem
    exact h y hy x hx hEq

theorem findCommonPublicKey_of_unique (a b : List Bytes)
    (ha : ∀ x ∈ a, isValidBytes x) (hb : ∀ y ∈ b, isValidBytes y)
    (k : Bytes) (hka : k ∈ a) (hkb : k ∈ b)
    (huniq : ∀ x ∈ a, x ∈ b → x = k) :
    findCommonPublicKey a b = some k := by
  have hpred : ∀ y ∈ b,
      ((a.map (fun pk => toBase64 pk)).contains (toBase64 y) = true) → y = k := by
    intro y hy hc
    rw [contains_iff_mem_chars] at hc
    obtain ⟨x, hx, hEq⟩ := List.mem_map.mp hc
    have hxy : x = y := toBase64_injOn x y (ha x hx) (hb y hy) hEq
    subst hxy
    exact huniq x hx hy
  have hkpred : (a.map (fun pk => toBase64 pk)).contains (toBase64 k) = true := by
    rw [contains_iff_mem_chars]
    exact List.mem_map.mpr ⟨k, hka, rfl⟩
  have hSome : (b.find? fun pk =>
      (a.map fun pk => toBase64 pk).contains (toBase64 pk)).isSome := by
    rw [List.find?_isSome]
    exact ⟨k, hkb, hkpred⟩
  unfold findCommonPublicKey
  cases hfind : b.find? fun pk => (a.map fun pk => toBase64 pk).contains (toBase64 pk) with
  | none => rw [hfind] at hSome; simp at hSome
  | some y =>
      have hy : y ∈ b := List.mem_of_find?_eq_some hfind
      have hpy := List.find?_some hfind
      rw [← hpred y hy hpy]

theorem lookupKey_removeKey (l : List (String × List Char)) (k : String) :
    lookupKey (removeKey l k) k = none := by
  induction l with
  | nil => rfl
  | cons hd tl ih =>
      obtain ⟨k', v⟩ := hd
      by_cases hk : k' = k
      · simp [removeKey, hk, ih]
      · simp [removeKey, lookupKey, hk, ih]

theorem removeKey_removeKey (l : List (String × List Char)) (k : String) :
    removeKey (removeKey l k) k = removeKey l k := by
  induction l with
  | nil => rfl
  | cons hd tl ih =>
      obtain ⟨k', v⟩ := hd
      by_cases hk : k' = k
      · simp [removeKey, hk, ih]
      · simp [removeKey, hk, ih]

theorem toBase64_ne_nil (bs : Bytes) (h : bs ≠ []) : toBase64 bs ≠ [] := by
  match bs with
  | [] => exact absurd rfl h
  | [b1] => simp [toBase64, encodeSextets]
  | [b1, b2] => simp [toBase64, encodeSextets]
  | b1 :: b2 :: b3 :: rest => simp [toBase64, encodeSextets]

/-- Demo provider used by the concrete witnesses. -/
def pDemo : Provider := ⟨"Demo dapp", "localhost"⟩

/-- Demo address derivation used by the concrete witnesses. -/
def demoDerive : Bytes → Address := fun bs => String.mk (toBase64 bs)

/-- An environment in which the platform credential API is absent. -/
def envNoWebAuthn : Env := ⟨true, false⟩

/-! ### Claims -/

/-- C1: when the two candidate sets of recoverTwoStep share exactly one
public key by raw-byte equality, the call resolves to the keypair built from
that key with its derived address (and the state holds that keypair and
address); when they are disjoint, the call rejects with the error message
Could not determine a unique public key from signatures. and the keypair and
address state cells are unchanged. -/
theorem recoverTwoStep_intersection_spec
    (p : Provider) (key : String) (a b : List Bytes) (derive : Bytes → Address)
    (m1 m2 : ByteOrString) (st : HookState) (store : Option StorageModel)
    (ha : ∀ x ∈ a, isValidBytes x) (hb : ∀ y ∈ b, isValidBytes y) :
    (∀ k, k ∈ a → k ∈ b → (∀ x ∈ a, x ∈ b → x = k) →
      (recoverTwoStep (some p) key (Except.ok a) (Except.ok b) derive m1 m2 st store).result
          = Except.ok (k, derive k) ∧
      (recoverTwoStep (some p) key (Except.ok a) (Except.ok b) derive m1 m2 st store).state.keypair
          = some k ∧
      (recoverTwoStep (some p) key (Except.ok a) (Except.ok b) derive m1 m2 st store).state.address
          = some (derive k)) ∧
    ((∀ x ∈ a, x ∉ b) →
      (recoverTwoStep (some p) key (Except.ok a) (Except.ok b) derive m1 m2 st store).result
          = Except.error ambiguousRecoveryMsg ∧
      (recoverTwoStep (some p) key (Except.ok a) (Except.ok b) derive m1 m2 st store).state.keypair
          = st.keypair ∧
      (recoverTwoStep (some p) key (Except.ok a) (Except.ok b) derive m1 m2 st store).state.address
          = st.address) := by
  constructor
  · intro k hka hkb huniq
    have hfind := findCommonPublicKey_of_unique a b ha hb k hka hkb huniq
    simp [recoverTwoStep, hfind]
  · intro hdisj
    have hfind : findCommonPublicKey a b = none := by
      rw [findCommonPublicKey_none_iff]
      intro y hy x hx hEq
      have hxy : x = y := toBase64_injOn x y (ha x hx) (hb y hy) hEq
      subst hxy
      exact hdisj x hx hy
    simp [recoverTwoStep, hfind]

/-- C1 witness: a concrete unique-intersection run and a concrete disjoint
run of recoverTwoStep behave as the theorem states. -/
theorem recoverTwoStep_intersection_spec_witness :
    ((recoverTwoStep (some pDemo) DEFAULT_STORAGE_KEY
        (Except.ok [[1], [2]]) (Except.ok [[2], [3]]) demoDerive
        defaultM1 defaultM2 initialState none).result
      = Except.ok ([2], demoDerive [2]) ∧
     (recoverTwoStep (some pDemo) DEFAULT_STORAGE_KEY
        (Except.ok [[1], [2]]) (Except.ok [[2], [3]]) demoDerive
        defaultM1 defaultM2 initialState none).state.keypair = some [2] ∧
     (recoverTwoStep (some pDemo) DEFAULT_STORAGE_KEY
        (Except.ok [[1], [2]]) (Except.ok [[2], [3]]) demoDerive
        defaultM1 defaultM2 initialState none).state.address
      = some (demoDerive [2])) ∧
    ((recoverTwoStep (some pDemo) DEFAULT_STORAGE_KEY
        (Except.ok [[1], [2]]) (Except.ok [[4], [3]]) demoDerive
        defaultM1 defaultM2 initialState none).result
      = Except.error ambiguousRecoveryMsg ∧
     (recoverTwoStep (some pDemo) DEFAULT_STORAGE_KEY
        (Except.ok [[1], [2]]) (Except.ok [[4], [3]]) demoDerive
        defaultM1 defaultM2 initialState none).state.keypair = initialState.keypair ∧
     (recoverTwoStep (some pDemo) DEFAULT_STORAGE_KEY
        (Except.ok [[1], [2]]) (Except.ok [[4], [3]]) demoDerive
        defaultM1 defaultM2 initialState none).state.address = initialState.address) :=
  ⟨(recoverTwoStep_intersection_spec pDemo DEFAULT_STORAGE_KEY [[1], [2]] [[2], [3]]
      demoDerive defaultM1 defaultM2 initialState none (by decide) (by decide)).1
      [2] (by decide) (by decide) (by decide),
   (recoverTwoStep_intersection_spec pDemo DEFAULT_STORAGE_KEY [[1], [2]] [[4], [3]]
      demoDerive defaultM1 defaultM2 initialState none (by decide) (by decide)).2
      (by decide)⟩

/-- C2 counterexample: when the intersection holds two keys, the resolved key
depends on the order of the candidate sets, so the claimed order-independence
of the resolved key fails on the code. -/
theorem findCommonPublicKey_order_counterexample :
    findCommonPublicKey [[0], [1]] [[1], [0]] = some [1] ∧
    findCommonPublicKey [[1], [0]] [[0], [1]] = some [0] ∧
    findCommonPublicKey [[0], [1]] [[1], [0]]
      ≠ findCommonPublicKey [[1], [0]] [[0], [1]] := by decide

/-- C2 amended: the no-match outcome of the recovery intersection is order
independent, and so is the resolved key whenever the two candidate sets share
exactly one key by raw-byte equality; with more than one shared key the
resolved key may depend on the order. -/
theorem findCommonPublicKey_symm_spec (a b : List Bytes)
    (ha : ∀ x ∈ a, isValidBytes x) (hb : ∀ y ∈ b, isValidBytes y) :
    (findCommonPublicKey a b = none ↔ findCommonPublicKey b a = none) ∧
    (∀ k, k ∈ a → k ∈ b → (∀ x ∈ a, x ∈ b → x = k) →
      findCommonPublicKey a b = some k ∧ findCommonPublicKey b a = some k) := by
  constructor
  · rw [findCommonPublicKey_none_iff, findCommonPublicKey_none_iff]
    constructor
    · intro h y hy x hx hEq
      exact h x hx y hy hEq.symm
    · intro h y hy x hx hEq
      exact h x hx y hy hEq.symm
  · intro k hka hkb huniq
    refine ⟨findCommonPublicKey_of_unique a b ha hb k hka hkb huniq,
            findCommonPublicKey_of_unique b a hb ha k hkb hka ?_⟩
    intro x hxb hxa
    exact huniq x hxa hxb

/-- C2 witness: on concrete singleton-intersection candidate sets both
orders resolve the shared key, and on concrete disjoint sets both orders
yield no match. -/
theorem findCommonPublicKey_symm_spec_witness :
    (findCommonPublicKey [[1], [2]] [[2], [3]] = some [2] ∧
     findCommonPublicKey [[2], [3]] [[1], [2]] = some [2]) ∧
    (findCommonPublicKey [[5]] [[6]] = none ↔ findCommonPublicKey [[6]] [[5]] = none) :=
  ⟨(findCommonPublicKey_symm_spec [[1], [2]] [[2], [3]] (by decide) (by decide)).2
      [2] (by decide) (by decide) (by decide),
   (findCommonPublicKey_symm_spec [[5]] [[6]] (by decide) (by decide)).1⟩

/-- C3 counterexample: a failing signPersonalMessage call (no keypair held)
rejects but leaves the observable error cell at none, so the failure is not
recorded in the error state, contrary to the claim for sign operations. -/
theorem sign_failure_not_recorded :
    (signPersonalMessage (Except.ok "sig") (Sum.inl [1]) initialState none).result
        = Except.error noKeypairMsg ∧
    (signPersonalMessage (Except.ok "sig") (Sum.inl [1]) initialState none).state.error
        = none ∧
    (signPersonalMessage (Except.ok "sig") (Sum.inl [1]) initialState none).state.error
        ≠ some noKeypairMsg := by
  refine ⟨rfl, rfl, by decide⟩

/-- C3 amended: failures of create and recoverTwoStep occurring after the
provider-availability check reject the promise and are recorded in the error
cell; the provider-absent failure of create and recoverTwoStep and every
failure of signPersonalMessage and signTransaction reject the promise but
leave the whole state, in particular the error cell, unchanged. -/
theorem error_propagation_spec (p : Provider) (key : String)
    (cer : Except String Bytes) (r1 r2 : Except String (List Bytes))
    (derive : Bytes → Address) (m1 m2 : ByteOrString)
    (sg1 sg2 : Except String String) (tx : Bytes)
    (st : HookState) (store : Option StorageModel) :
    (∀ e, (create (some p) key cer derive st store).result = Except.error e →
      (create (some p) key cer derive st store).state.error = some e) ∧
    (∀ e, (recoverTwoStep (some p) key r1 r2 derive m1 m2 st store).result
          = Except.error e →
      (recoverTwoStep (some p) key r1 r2 derive m1 m2 st store).state.error = some e) ∧
    ((create none key cer derive st store).result
        = Except.error passkeyUnavailableMsg ∧
     (create none key cer derive st store).state = st) ∧
    ((recoverTwoStep none key r1 r2 derive m1 m2 st store).result
        = Except.error passkeyUnavailableMsg ∧
     (recoverTwoStep none key r1 r2 derive m1 m2 st store).state = st) ∧
    ((signPersonalMessage sg1 m1 st store).state = st) ∧
    ((signTransaction sg2 tx st store).state = st) := by
  refine ⟨?_, ?_, ⟨rfl, rfl⟩, ⟨rfl, rfl⟩, ?_, ?_⟩
  · intro e hres
    cases cer with
    | error e' =>
        simp [create] at hres ⊢
        simp [hres]
    | ok kp => simp [create] at hres
  · intro e hres
    cases r1 with
    | error e' =>
        simp [recoverTwoStep] at hres ⊢
        simp [hres]
    | ok a =>
        cases r2 with
        | error e' =>
            simp [recoverTwoStep] at hres ⊢
            simp [hres]
        | ok b =>
            cases hfind : findCommonPublicKey a b with
            | none =>
                simp [recoverTwoStep, hfind] at hres ⊢
                simp [hres]
            | some k => simp [recoverTwoStep, hfind] at hres
  · cases hk : st.keypair with
    | none => simp [signPersonalMessage, hk]
    | some kp => cases sg1 <;> simp [signPersonalMessage, hk]
  · cases hk : st.keypair with
    | none => simp [signTransaction, hk]
    | some kp => cases sg2 <;> simp [signTransaction, hk]

/-- C3 witness: a concrete failing create run records its error, and a
concrete failing sign run leaves the state untouched. -/
theorem error_propagation_spec_witness :
    (create (some pDemo) DEFAULT_STORAGE_KEY (Except.error "ceremony cancelled")
        demoDerive initialState none).state.error = some "ceremony cancelled" ∧
    (signPersonalMessage (Except.ok "sig") (Sum.inl [1]) initialState none).state
        = initialState :=
  ⟨(error_propagation_spec pDemo DEFAULT_STORAGE_KEY (Except.error "ceremony cancelled")
      (Except.ok []) (Except.ok []) demoDerive (Sum.inl [1]) (Sum.inl [1])
      (Except.ok "sig") (Except.ok "sig") [1] initialState none).1
      "ceremony cancelled" rfl,
   (error_propagation_spec pDemo DEFAULT_STORAGE_KEY (Except.error "ceremony cancelled")
      (Except.ok []) (Except.ok []) demoDerive (Sum.inl [1]) (Sum.inl [1])
      (Except.ok "sig") (Except.ok "sig") [1] initialState none).2.2.2.2.1⟩

/-- C4: signPersonalMessage and signTransaction, succeeding or failing, leave
the loading, error, address and keypair cells (and the storage) unchanged. -/
theorem sign_frame_spec (sg1 sg2 : Except String String) (m : ByteOrString)
    (tx : Bytes) (st : HookState) (store : Option StorageModel) :
    (signPersonalMessage sg1 m st store).state.loading = st.loading ∧
    (signPersonalMessage sg1 m st store).state.error = st.error ∧
    (signPersonalMessage sg1 m st store).state.address = st.address ∧
    (signPersonalMessage sg1 m st store).state.keypair = st.keypair ∧
    (signPersonalMessage sg1 m st store).store = store ∧
    (signTransaction sg2 tx st store).state.loading = st.loading ∧
    (signTransaction sg2 tx st store).state.error = st.error ∧
    (signTransaction sg2 tx st store).state.address = st.address ∧
    (signTransaction sg2 tx st store).state.keypair = st.keypair ∧
    (signTransaction sg2 tx st store).store = store := by
  cases hk : st.keypair with
  | none => cases sg1 <;> cases sg2 <;> simp [signPersonalMessage, signTransaction, hk]
  | some kp => cases sg1 <;> cases sg2 <;> simp [signPersonalMessage, signTransaction, hk]

/-- C5 counterexample: in an environment without the platform credential API
the sign operations reject with the no-keypair precondition message, which is
not the unavailable message the claim requires for every operation. -/
theorem unsupported_sign_error_counterexample :
    supported envNoWebAuthn = false ∧
    mkProvider envNoWebAuthn "Demo dapp" none "localhost" false = none ∧
    (signPersonalMessage (Except.ok "sig") (Sum.inl [1]) initialState none).result
        = Except.error noKeypairMsg ∧
    noKeypairMsg ≠ passkeyUnavailableMsg := by
  refine ⟨rfl, rfl, rfl, by decide⟩

/-- C5 amended: when the platform credential API is absent the adapter
exposes supported false, the provider is not constructed, create and
recoverTwoStep reject with the Unavailable message, and the sign operations
(all keypair-less in such an adapter) reject with the no-keypair
precondition message; none of the four invokes a ceremony, an SDK signing
routine or storage I/O, and state and storage are unchanged. -/
theorem unsupported_rejects_spec (e : Env) (he : hasWebAuthn e = false)
    (rpName : String) (rpId : Option String) (host : String) (ct : Bool)
    (key : String) (cer : Except String Bytes) (r1 r2 : Except String (List Bytes))
    (derive : Bytes → Address) (m1 m2 : ByteOrString)
    (sg1 sg2 : Except String String) (tx : Bytes)
    (st : HookState) (hk : st.keypair = none) (store : Option StorageModel) :
    supported e = false ∧
    mkProvider e rpName rpId host ct = none ∧
    ((create (mkProvider e rpName rpId host ct) key cer derive st store).result
        = Except.error passkeyUnavailableMsg ∧
     (create (mkProvider e rpName rpId host ct) key cer derive st store).events = [] ∧
     (create (mkProvider e rpName rpId host ct) key cer derive st store).state = st ∧
     (create (mkProvider e rpName rpId host ct) key cer derive st store).store = store) ∧
    ((recoverTwoStep (mkProvider e rpName rpId host ct) key r1 r2 derive m1 m2 st store).result
        = Except.error passkeyUnavailableMsg ∧
     (recoverTwoStep (mkProvider e rpName rpId host ct) key r1 r2 derive m1 m2 st store).events
        = [] ∧
     (recoverTwoStep (mkProvider e rpName rpId host ct) key r1 r2 derive m1 m2 st store).state
        = st ∧
     (recoverTwoStep (mkProvider e rpName rpId host ct) key r1 r2 derive m1 m2 st store).store
        = store) ∧
    ((signPersonalMessage sg1 m1 st store).result = Except.error noKeypairMsg ∧
     (signPersonalMessage sg1 m1 st store).events = [] ∧
     (signPersonalMessage sg1 m1 st store).state = st ∧
     (signPersonalMessage sg1 m1 st store).store = store) ∧
    ((signTransaction sg2 tx st store).result = Except.error noKeypairMsg ∧
     (signTransaction sg2 tx st store).events = [] ∧
     (signTransaction sg2 tx st store).state = st ∧
     (signTransaction sg2 tx st store).store = store) := by
  have hsupp : supported e = false := he
  have hprov : mkProvider e rpName rpId host ct = none := by
    simp [mkProvider, hsupp]
  rw [hprov]
  exact ⟨hsupp, rfl,
    ⟨rfl, rfl, rfl, rfl⟩,
    ⟨rfl, rfl, rfl, rfl⟩,
    by simp [signPersonalMessage, hk],
    by simp [signTransaction, hk]⟩

/-- C5 witness: the concrete no-WebAuthn environment with a fresh adapter
state behaves as the theorem states. -/
theorem unsupported_rejects_spec_witness :
    supported envNoWebAuthn = false ∧
    mkProvider envNoWebAuthn "Demo dapp" none "localhost" false = none ∧
    ((create (mkProvider envNoWebAuthn "Demo dapp" none "localhost" false)
        DEFAULT_STORAGE_KEY (Except.ok [1]) demoDerive initialState none).result
        = Except.error passkeyUnavailableMsg ∧
     (create (mkProvider envNoWebAuthn "Demo dapp" none "localhost" false)
        DEFAULT_STORAGE_KEY (Except.ok [1]) demoDerive initialState none).events = [] ∧
     (create (mkProvider envNoWebAuthn "Demo dapp" none "localhost" false)
        DEFAULT_STORAGE_KEY (Except.ok [1]) demoDerive initialState none).state
        = initialState ∧
     (create (mkProvider envNoWebAuthn "Demo dapp" none "localhost" false)
        DEFAULT_STORAGE_KEY (Except.ok [1]) demoDerive initialState none).store = none) ∧
    ((recoverTwoStep (mkProvider envNoWebAuthn "Demo dapp" none "localhost" false)
        DEFAULT_STORAGE_KEY (Except.ok [[1]]) (Except.ok [[1]]) demoDerive
        defaultM1 defaultM2 initialState none).result
        = Except.error passkeyUnavailableMsg ∧
     (recoverTwoStep (mkProvider envNoWebAuthn "Demo dapp" none "localhost" false)
        DEFAULT_STORAGE_KEY (Except.ok [[1]]) (Except.ok [[1]]) demoDerive
        defaultM1 defaultM2 initialState none).events = [] ∧
     (recoverTwoStep (mkProvider envNoWebAuthn "Demo dapp" none "localhost" false)
        DEFAULT_STORAGE_KEY (Except.ok [[1]]) (Except.ok [[1]]) demoDerive
        defaultM1 defaultM2 initialState none).state = initialState ∧
     (recoverTwoStep (mkProvider envNoWebAuthn "Demo dapp" none "localhost" false)
        DEFAULT_STORAGE_KEY (Except.ok [[1]]) (Except.ok [[1]]) demoDerive
        defaultM1 defaultM2 initialState none).store = none) ∧
    ((signPersonalMessage (Except.ok "sig") defaultM1 initialState none).result
        = Except.error noKeypairMsg ∧
     (signPersonalMessage (Except.ok "sig") defaultM1 initialState none).events = [] ∧
     (signPersonalMessage (Except.ok "sig") defaultM1 initialState none).state
        = initialState ∧
     (signPersonalMessage (Except.ok "sig") defaultM1 initialState none).store = none) ∧
    ((signTransaction (Except.ok "sig") [9] initialState none).result
        = Except.error noKeypairMsg ∧
     (signTransaction (Except.ok "sig") [9] initialState none).events = [] ∧
     (signTransaction (Except.ok "sig") [9] initialState none).state = initialState ∧
     (signTransaction (Except.ok "sig") [9] initialState none).store = none) :=
  unsupported_rejects_spec envNoWebAuthn rfl "Demo dapp" none "localhost" false
    DEFAULT_STORAGE_KEY (Except.ok [1]) (Except.ok [[1]]) (Except.ok [[1]])
    demoDerive defaultM1 defaultM2 (Except.ok "sig") (Except.ok "sig") [9]
    initialState rfl none

/-- C6: after a successful create, the storage slot holds the base64 string
of the created raw public key (the default slot name being
sui:passkey:pubkey), that string decodes back to exactly those bytes, and a
fresh adapter with autoLoad over the same storage rehydrates the keypair and
derives the same address with a single storage read and no ceremony. -/
theorem create_persistence_roundtrip
    (p p' : Provider) (key : String) (kp : Bytes) (derive : Bytes → Address)
    (st : HookState) (s : StorageModel)
    (hv : isValidBytes kp) (hne : kp ≠ [])
    (hset : s.setThrows = false) (hget : s.getThrows = false) :
    DEFAULT_STORAGE_KEY = "sui:passkey:pubkey" ∧
    (create (some p) key (Except.ok kp) derive st (some s)).result
        = Except.ok (kp, derive kp) ∧
    (create (some p) key (Except.ok kp) derive st (some s)).state.address
        = some (derive kp) ∧
    (∃ s', (create (some p) key (Except.ok kp) derive st (some s)).store = some s' ∧
      lookupKey s'.items key = some (toBase64 kp) ∧
      fromBase64 (toBase64 kp) = some kp ∧
      rehydrate (some p') (some s') true key derive initialState
        = ({ initialState with keypair := some kp, address := some (derive kp) },
           [ExtEvent.storageGet key])) := by
  have hpersist : persist key (some s) kp
      = (some { s with items := (key, toBase64 kp) :: removeKey s.items key },
         [ExtEvent.storageSet key (toBase64 kp)]) := by
    simp [persist, StorageModel.setItem, hset]
  refine ⟨rfl, by simp [create, hpersist], by simp [create, hpersist], ?_⟩
  refine ⟨{ s with items := (key, toBase64 kp) :: removeKey s.items key },
    by simp [create, hpersist], by simp [lookupKey], fromBase64_toBase64 kp hv, ?_⟩
  have hb64 : toBase64 kp ≠ [] := toBase64_ne_nil kp hne
  simp [rehydrate, StorageModel.getItem, hget, lookupKey, hb64,
        fromBase64_toBase64 kp hv]

/-- C6 witness: a concrete create followed by a fresh rehydration round-trips
the public key and the address through storage. -/
theorem create_persistence_roundtrip_witness :
    DEFAULT_STORAGE_KEY = "sui:passkey:pubkey" ∧
    (create (some pDemo) DEFAULT_STORAGE_KEY (Except.ok [1, 2, 3]) demoDerive
        initialState (some ⟨[], false, false, false⟩)).result
        = Except.ok ([1, 2, 3], demoDerive [1, 2, 3]) ∧
    (create (some pDemo) DEFAULT_STORAGE_KEY (Except.ok [1, 2, 3]) demoDerive
        initialState (some ⟨[], false, false, false⟩)).state.address
        = some (demoDerive [1, 2, 3]) ∧
    (∃ s', (create (some pDemo) DEFAULT_STORAGE_KEY (Except.ok [1, 2, 3]) demoDerive
        initialState (some ⟨[], false, false, false⟩)).store = some s' ∧
      lookupKey s'.items DEFAULT_STORAGE_KEY = some (toBase64 [1, 2, 3]) ∧
      fromBase64 (toBase64 [1, 2, 3]) = some [1, 2, 3] ∧
      rehydrate (some pDemo) (some s') true DEFAULT_STORAGE_KEY demoDerive initialState
        = ({ initialState with keypair := some [1, 2, 3], address := some (demoDerive [1, 2, 3]) },
           [ExtEvent.storageGet DEFAULT_STORAGE_KEY])) :=
  create_persistence_roundtrip pDemo pDemo DEFAULT_STORAGE_KEY [1, 2, 3] demoDerive
    initialState ⟨[], false, false, false⟩ (by decide) (by decide) rfl rfl

/-- C7: clear always resets keypair, address and error to none, is
idempotent on state and storage, and removes the configured storage slot
whenever the storage removal does not itself throw; a throwing removal is
swallowed, the call still completing with the reset state. -/
theorem clear_spec (key : String) (st : HookState) (store : Option StorageModel) :
    (clear key st store).1
        = { st with keypair := none, address := none, error := none } ∧
    ((clear key st store).1.keypair = none ∧
     (clear key st store).1.address = none ∧
     (clear key st store).1.error = none) ∧
    clear key (clear key st store).1 (clear key st store).2.1
        = ((clear key st store).1, (clear key st store).2.1,
           (clear key st store).2.2) ∧
    (∀ s, store = some s → s.removeThrows = false →
      ∃ s', (clear key st store).2.1 = some s' ∧ lookupKey s'.items key = none) := by
  refine ⟨rfl, ⟨rfl, rfl, rfl⟩, ?_, ?_⟩
  · cases store with
    | none => rfl
    | some s =>
        by_cases hr : s.removeThrows
        · simp [clear, StorageModel.removeItem, hr]
        · simp [clear, StorageModel.removeItem, hr, removeKey_removeKey]
  · intro s hs hr
    subst hs
    refine ⟨{ s with items := removeKey s.items key }, ?_, lookupKey_removeKey _ _⟩
    simp [clear, StorageModel.removeItem, hr]

/-- C7 witness: clearing a concrete session with a populated storage slot
resets the state, empties the slot and is idempotent. -/
theorem clear_spec_witness :
    (clear DEFAULT_STORAGE_KEY
        { keypair := some [1], address := some "0xabc", error := some "old",
          loading := true }
        (some ⟨[(DEFAULT_STORAGE_KEY, toBase64 [1])], false, false, false⟩)).1
        = { keypair := none, address := none, error := none, loading := true } ∧
    (∃ s', (clear DEFAULT_STORAGE_KEY
        { keypair := some [1], address := some "0xabc", error := some "old",
          loading := true }
        (some ⟨[(DEFAULT_STORAGE_KEY, toBase64 [1])], false, false, false⟩)).2.1
          = some s' ∧
      lookupKey s'.items DEFAULT_STORAGE_KEY = none) :=
  ⟨(clear_spec DEFAULT_STORAGE_KEY
      { keypair := some [1], address := some "0xabc", error := some "old",
        loading := true }
      (some ⟨[(DEFAULT_STORAGE_KEY, toBase64 [1])], false, false, false⟩)).1,
   (clear_spec DEFAULT_STORAGE_KEY
      { keypair := some [1], address := some "0xabc", error := some "old",
        loading := true }
      (some ⟨[(DEFAULT_STORAGE_KEY, toBase64 [1])], false, false, false⟩)).2.2.2
      ⟨[(DEFAULT_STORAGE_KEY, toBase64 [1])], false, false, false⟩ rfl rfl⟩

theorem signPersonalMessage_state_eq (sg : Except String String)
    (m : ByteOrString) (st : HookState) (store : Option StorageModel) :
    (signPersonalMessage sg m st store).state = st := by
  cases hk : st.keypair <;> cases sg <;> simp [signPersonalMessage, hk]

theorem signTransaction_state_eq (sg : Except String String)
    (tx : Bytes) (st : HookState) (store : Option StorageModel) :
    (signTransaction sg tx st store).state = st := by
  cases hk : st.keypair <;> cases sg <;> simp [signTransaction, hk]

/-- C8: with no keypair held, signPersonalMessage and signTransaction reject
with the no-keypair precondition message, leave the state untouched and
invoke neither the credential ceremony nor the signing capability (the event
trace is empty). -/
theorem sign_requires_keypair_spec (sg1 sg2 : Except String String)
    (m : ByteOrString) (tx : Bytes) (st : HookState)
    (store : Option StorageModel) (hk : st.keypair = none) :
    (signPersonalMessage sg1 m st store).result = Except.error noKeypairMsg ∧
    (signPersonalMessage sg1 m st store).events = [] ∧
    (signPersonalMessage sg1 m st store).state = st ∧
    (signTransaction sg2 tx st store).result = Except.error noKeypairMsg ∧
    (signTransaction sg2 tx st store).events = [] ∧
    (signTransaction sg2 tx st store).state = st := by
  simp [signPersonalMessage, signTransaction, hk]

/-- C8 witness: signing on the fresh keypair-less state rejects with the
precondition message and an empty event trace. -/
theorem sign_requires_keypair_spec_witness :
    (signPersonalMessage (Except.ok "sig") (Sum.inl [7]) initialState none).result
        = Except.error noKeypairMsg ∧
    (signPersonalMessage (Except.ok "sig") (Sum.inl [7]) initialState none).events = [] ∧
    (signPersonalMessage (Except.ok "sig") (Sum.inl [7]) initialState none).state
        = initialState ∧
    (signTransaction (Except.ok "sig") [8] initialState none).result
        = Except.error noKeypairMsg ∧
    (signTransaction (Except.ok "sig") [8] initialState none).events = [] ∧
    (signTransaction (Except.ok "sig") [8] initialState none).state = initialState :=
  sign_requires_keypair_spec (Except.ok "sig") (Except.ok "sig") (Sum.inl [7]) [8]
    initialState none rfl

/-- The implicit session invariant: a keypair is held exactly when an address
is held, and a held address is the derivation of the held keypair. -/
def addrInv (derive : Bytes → Address) (st : HookState) : Prop :=
  (st.keypair.isSome ↔ st.address.isSome) ∧
  ∀ kp, st.keypair = some kp → st.address = some (derive kp)

theorem addrInv_of_eq (derive : Bytes → Address) (st st' : HookState)
    (hkp : st'.keypair = st.keypair) (had : st'.address = st.address)
    (h : addrInv derive st) : addrInv derive st' := by
  obtain ⟨h1, h2⟩ := h
  refine ⟨by rw [hkp, had]; exact h1, ?_⟩
  intro kp hk
  rw [had]
  exact h2 kp (hkp.symm.trans hk)

theorem addrInv_of_set (derive : Bytes → Address) (st' : HookState) (kp : Bytes)
    (hkp : st'.keypair = some kp) (had : st'.address = some (derive kp)) :
    addrInv derive st' := by
  refine ⟨by rw [hkp, had]; simp, ?_⟩
  intro kp' hk
  rw [hkp] at hk
  injection hk with he
  rw [had, he]

/-- C9: every operation (create, recoverTwoStep, rehydration, clear and the
sign operations) preserves the invariant that the keypair cell is populated
exactly when the address cell is, with the address derived from the held
public key. -/
theorem session_invariant_spec (derive : Bytes → Address)
    (prov : Option Provider) (key : String) (cer : Except String Bytes)
    (r1 r2 : Except String (List Bytes)) (m1 m2 : ByteOrString)
    (sg1 sg2 : Except String String) (tx : Bytes) (auto : Bool)
    (st : HookState) (store : Option StorageModel) (h : addrInv derive st) :
    addrInv derive (create prov key cer derive st store).state ∧
    addrInv derive (recoverTwoStep prov key r1 r2 derive m1 m2 st store).state ∧
    addrInv derive (rehydrate prov store auto key derive st).1 ∧
    addrInv derive (clear key st store).1 ∧
    addrInv derive (signPersonalMessage sg1 m1 st store).state ∧
    addrInv derive (signTransaction sg2 tx st store).state := by
  refine ⟨?_, ?_, ?_, ?_, ?_, ?_⟩
  · cases prov with
    | none => exact addrInv_of_eq derive st _ rfl rfl h
    | some p =>
        cases cer with
        | error e => exact addrInv_of_eq derive st _ rfl rfl h
        | ok kp => exact addrInv_of_set derive _ kp rfl rfl
  · cases prov with
    | none => exact addrInv_of_eq derive st _ rfl rfl h
    | some p =>
        cases r1 with
        | error e => exact addrInv_of_eq derive st _ rfl rfl h
        | ok a =>
            cases r2 with
            | error e => exact addrInv_of_eq derive st _ rfl rfl h
            | ok b =>
                cases hfind : findCommonPublicKey a b with
                | none =>
                    exact addrInv_of_eq derive st _
                      (by simp [recoverTwoStep, hfind])
                      (by simp [recoverTwoStep, hfind]) h
                | some k =>
                    exact addrInv_of_set derive _ k
                      (by simp [recoverTwoStep, hfind])
                      (by simp [recoverTwoStep, hfind])
  · cases prov with
    | none => exact addrInv_of_eq derive st _ rfl rfl h
    | some p =>
        cases store with
        | none => exact addrInv_of_eq derive st _ rfl rfl h
        | some s =>
            cases auto with
            | false => exact addrInv_of_eq derive st _ rfl rfl h
            | true =>
                by_cases hg : s.getThrows
                · exact addrInv_of_eq derive st _
                    (by simp [rehydrate, StorageModel.getItem, hg])
                    (by simp [rehydrate, StorageModel.getItem, hg]) h
                · cases hlk : lookupKey s.items key with
                  | none =>
                      exact addrInv_of_eq derive st _
                        (by simp [rehydrate, StorageModel.getItem, hg, hlk])
                        (by simp [rehydrate, StorageModel.getItem, hg, hlk]) h
                  | some b64 =>
                      by_cases hb : b64 = []
                      · exact addrInv_of_eq derive st _
                          (by simp [rehydrate, StorageModel.getItem, hg, hlk, hb])
                          (by simp [rehydrate, StorageModel.getItem, hg, hlk, hb]) h
                      · cases hfb : fromBase64 b64 with
                        | none =>
                            exact addrInv_of_eq derive st _
                              (by simp [rehydrate, StorageModel.getItem, hg, hlk,
                                hb, hfb])
                              (by simp [rehydrate, StorageModel.getItem, hg, hlk,
                                hb, hfb]) h
                        | some bytes =>
                            exact addrInv_of_set derive _ bytes
                              (by simp [rehydrate, StorageModel.getItem, hg, hlk,
                                hb, hfb])
                              (by simp [rehydrate, StorageModel.getItem, hg, hlk,
                                hb, hfb])
  · refine ⟨by simp [clear], ?_⟩
    intro kp hk
    simp [clear] at hk
  · exact addrInv_of_eq derive st _
      (by rw [signPersonalMessage_state_eq]) (by rw [signPersonalMessage_state_eq]) h
  · exact addrInv_of_eq derive st _
      (by rw [signTransaction_state_eq]) (by rw [signTransaction_state_eq]) h

/-- C9 witness: the invariant holds of the fresh state and is preserved by a
concrete successful round of every operation. -/
theorem session_invariant_spec_witness :
    addrInv demoDerive initialState ∧
    addrInv demoDerive (create (some pDemo) DEFAULT_STORAGE_KEY (Except.ok [1])
        demoDerive initialState none).state ∧
    addrInv demoDerive (recoverTwoStep (some pDemo) DEFAULT_STORAGE_KEY
        (Except.ok [[1]]) (Except.ok [[1]]) demoDerive defaultM1 defaultM2
        initialState none).state ∧
    addrInv demoDerive (rehydrate (some pDemo) none true DEFAULT_STORAGE_KEY
        demoDerive initialState).1 ∧
    addrInv demoDerive (clear DEFAULT_STORAGE_KEY initialState none).1 ∧
    addrInv demoDerive (signPersonalMessage (Except.ok "sig") defaultM1
        initialState none).state ∧
    addrInv demoDerive (signTransaction (Except.ok "sig") [2]
        initialState none).state :=
  have hinit : addrInv demoDerive initialState := by
    refine ⟨by simp [initialState], ?_⟩
    intro kp hkp
    simp [initialState] at hkp
  ⟨hinit,
   session_invariant_spec demoDerive (some pDemo) DEFAULT_STORAGE_KEY
     (Except.ok [1]) (Except.ok [[1]]) (Except.ok [[1]]) defaultM1 defaultM2
     (Except.ok "sig") (Except.ok "sig") [2] true initialState none hinit⟩

/-- C10: clear leaves the loading flag exactly as it was and resets only the
keypair, address and error cells. -/
theorem clear_loading_frame_spec (key : String) (st : HookState)
    (store : Option StorageModel) :
    (clear key st store).1.loading = st.loading ∧
    (clear key st store).1
        = { st with keypair := none, address := none, error := none } :=
  ⟨rfl, rfl⟩

end UseSuiPasskey
